import Mathlib

/- Shallow embedding of the DnDMusic scene-recommendation core:
`app/models.py`, `app/cache.py` and `app/music_service.py`.

Python strings are Lean `String`s; the configuration dicts are
insertion-ordered association lists; the wall clock is an `Int` passed
explicitly; the two injected collaborators (the scene classifier and the
optional video-search client) are records of functions; Python exceptions
crossing the service boundary are the `PyError` sum carried by `Except`.
`recommend` additionally returns a trace of which collaborators it invoked,
mirroring the call-count instrumentation the spec asks tests to use. -/

/- Models `str.lower` (exact on ASCII, the range exercised by the claims). -/
def pyCharLower (c : Char) : Char :=
  if 65 ≤ c.toNat ∧ c.toNat ≤ 90 then Char.ofNat (c.toNat + 32) else c

/-- Python `value.lower()`. -/
def pyLower (s : String) : String :=
  ⟨s.data.map pyCharLower⟩

/-- Whitespace stripped by Python `str.strip()`. -/
def pyIsSpace (c : Char) : Bool :=
  c == ' ' || c == '\t' || c == '\n' || c == '\r' || c == '\x0b' || c == '\x0c'

/-- Python `str.strip()`: drop whitespace from both ends. -/
def pyStrip (s : String) : String :=
  ⟨((s.data.dropWhile pyIsSpace).reverse.dropWhile pyIsSpace).reverse⟩

/-- Python `s.startswith(p)`. -/
def pyStartsWith (s p : String) : Bool :=
  p.data.isPrefixOf s.data

/- Word-constituent characters for the regex split on `[^\w]+` in
`MusicService._tokenize`: ASCII alphanumerics, the underscore, and every
non-ASCII codepoint (approximating the `re.UNICODE` word class; exact on all
inputs occurring in the configuration, the spec and the tests). -/
def word_char (c : Char) : Bool :=
  c.isAlphanum || c == '_' || 128 ≤ c.toNat

/- Maximal runs of word characters, in order: the nonempty pieces produced by
splitting a character list on runs of non-word characters. The accumulator
`cur` holds the current run, reversed. -/
def word_runs : List Char → List Char → List (List Char)
  | [], cur => if cur.isEmpty then [] else [cur.reverse]
  | c :: rest, cur =>
    if word_char c then
      word_runs rest (c :: cur)
    else if cur.isEmpty then
      word_runs rest []
    else
      cur.reverse :: word_runs rest []

/-- `MusicService._tokenize` (music_service.py lines 339-346): lowercase,
underscores to spaces, split on runs of non-word characters, drop empties. -/
def MusicService.tokenize (value : String) : List String :=
  (word_runs ((pyLower value).data.map fun c => if c == '_' then ' ' else c) []).map
    fun run => (⟨run⟩ : String)

/-- Python `"_".join l`. -/
def join_underscore : List String → String
  | [] => ""
  | [t] => t
  | t :: rest => t ++ "_" ++ join_underscore rest

/-- `MusicService._normalize_token` (lines 334-337). -/
def MusicService.normalize_token (value : String) : String :=
  join_underscore (MusicService.tokenize value)

/-- Uppercase hexadecimal digit, as produced by `urllib.parse.quote`. -/
def hex_upper (n : Nat) : Char :=
  if n < 10 then Char.ofNat (48 + n) else Char.ofNat (55 + n)

/-- Bytes `urllib.parse.quote` leaves unescaped: letters, digits, `_.-~`. -/
def quote_safe_byte (n : Nat) : Bool :=
  (65 ≤ n && n ≤ 90) || (97 ≤ n && n ≤ 122) || (48 ≤ n && n ≤ 57) ||
    n == 95 || n == 46 || n == 45 || n == 126

/-- `quote_plus` treatment of one UTF-8 byte: safe bytes kept, the space
becomes `+`, everything else percent-encoded with uppercase hex. -/
def quote_plus_byte (n : Nat) : String :=
  if quote_safe_byte n then ⟨[Char.ofNat n]⟩
  else if n == 32 then "+"
  else ⟨['%', hex_upper (n / 16), hex_upper (n % 16)]⟩

/-- `urllib.parse.quote_plus` over the UTF-8 encoding of the string. -/
def quote_plus (s : String) : String :=
  String.join (((s.data.map fun c => (String.utf8EncodeChar c).map UInt8.toNat).flatten).map quote_plus_byte)

/-- `models.PlaylistProviderConfig`. -/
structure PlaylistProviderConfig where
  name : String
  url_template : String
  description : Option String := none
  deriving DecidableEq

/-- `models.PlaylistSearch`; the URL is kept as plain text (the pydantic
`HttpUrl` validation is outside this core). -/
structure PlaylistSearch where
  provider : String
  url : String
  description : Option String := none
  deriving DecidableEq

/-- `PlaylistProviderConfig.build_search` (models.py lines 29-32): substitute
the percent-encoded query into the `\x7bquery\x7d` placeholder. -/
def PlaylistProviderConfig.build_search (p : PlaylistProviderConfig) (query : String) :
    PlaylistSearch :=
  { provider := p.name
    url := p.url_template.replace "\x7bquery\x7d" (quote_plus query)
    description := p.description }

/- `models.SceneConfig`, exactly as declared in models.py (lines 43-54): note
that it has no `youtube_playlist_id` or `youtube_video_ids` field, although
music_service.py reads both. -/
structure SceneConfig where
  query : String
  volume : Option Int := none
  crossfade : Option Int := none
  cooldown_sec : Option Int := none
  providers : List PlaylistProviderConfig := []
  deriving DecidableEq

/-- `models.DynamicSceneConfig`. -/
structure DynamicSceneConfig where
  volume : Option Int := none
  crossfade : Option Int := none
  cooldown_sec : Option Int := none
  providers : List PlaylistProviderConfig := []
  deriving DecidableEq

/-- `models.GenreConfig`: scenes keep dict insertion order. -/
structure GenreConfig where
  scenes : List (String × SceneConfig) := []
  dynamic_defaults : Option DynamicSceneConfig := none
  deriving DecidableEq

/-- `models.HysteresisConfig`; the float `min_confidence` is carried as a
rational, it is pure passthrough data. -/
structure HysteresisConfig where
  min_confidence : ℚ
  window_sec : Int
  cooldown_sec : Int
  cache_ttl_sec : Int := 600
  deriving DecidableEq

/-- `models.MusicConfig`. -/
structure MusicConfig where
  genres : List (String × GenreConfig)
  hysteresis : HysteresisConfig
  deriving DecidableEq

/-- Lookup in an insertion-ordered association list (Python `dict[key]`). -/
def assoc_get {β : Type} : List (String × β) → String → Option β
  | [], _ => none
  | (k, v) :: rest, key => if k = key then some v else assoc_get rest key

/-- `MusicConfig._get_genre_config` (models.py lines 108-112); the `.error`
string is the `KeyError` message. -/
def MusicConfig.get_genre_config (cfg : MusicConfig) (genre : String) :
    Except String GenreConfig :=
  match assoc_get cfg.genres (pyLower genre) with
  | some gc => .ok gc
  | none => .error ("Unknown genre: " ++ genre)

/-- `MusicConfig.get_scene` (models.py lines 97-102). -/
def MusicConfig.get_scene (cfg : MusicConfig) (genre scene : String) :
    Except String SceneConfig :=
  match cfg.get_genre_config genre with
  | .error e => .error e
  | .ok gc =>
    match assoc_get gc.scenes (pyLower scene) with
    | some sc => .ok sc
    | none => .error ("Unknown scene \x27" ++ scene ++ "\x27 for genre \x27" ++ genre ++ "\x27")

/-- `MusicConfig.get_dynamic_defaults` (models.py lines 104-106). -/
def MusicConfig.get_dynamic_defaults (cfg : MusicConfig) (genre : String) :
    Except String (Option DynamicSceneConfig) :=
  match cfg.get_genre_config genre with
  | .error e => .error e
  | .ok gc => .ok gc.dynamic_defaults

/-- `models.SearchResult`, exactly as declared (lines 115-122): no youtube
fields. -/
structure SearchResult where
  genre : String
  scene : String
  query : String
  playlists : List PlaylistSearch
  hysteresis : HysteresisConfig
  deriving DecidableEq

/-- `models.RecommendationResult` (lines 132-144). -/
structure RecommendationResult extends SearchResult where
  tags : List String
  confidence : Option ℚ := none
  reason : Option String := none
  deriving DecidableEq

/-- `ai_client.ScenePrediction`. -/
structure ScenePrediction where
  scene : String
  confidence : Option ℚ := none
  reason : Option String := none
  deriving DecidableEq

/-- Python exceptions observable at the `MusicService` boundary. -/
inductive PyError where
  | genreNotFound (msg : String)
  | sceneNotFound (msg : String)
  | recommendationUnavailable (msg : String)
  | keyError (msg : String)
  | attributeError (msg : String)
  | valueError (msg : String)
  deriving DecidableEq

/-- Instrumentation events recording which collaborators a run invoked. -/
inductive TraceEv where
  | classifierCall
  | classifierTextCall
  | canonicalResolve
  | searchCall
  deriving DecidableEq

/-- Entry of `cache.TTLCache` (`_CacheEntry`). -/
structure CacheEntry (V : Type) where
  value : V
  expires_at : Int

/-- `cache.TTLCache`: the storage dict as a finite map. -/
structure TTLCache (K V : Type) where
  ttl : Int
  storage : K → Option (CacheEntry V)

/-- `TTLCache.get` (cache.py lines 26-33): lazy expiry, evicting the entry
the read discovers dead; a missing or expired key yields `none`. -/
def TTLCache.get {K V : Type} [DecidableEq K] (c : TTLCache K V) (now : Int) (key : K) :
    Option V × TTLCache K V :=
  match c.storage key with
  | none => (none, c)
  | some e =>
    if e.expires_at < now then
      (none, { c with storage := fun k => if k = key then none else c.storage k })
    else
      (some e.value, c)

/-- `TTLCache.set` (cache.py lines 35-37): absolute expiry `now + ttl`. -/
def TTLCache.set {K V : Type} [DecidableEq K] (c : TTLCache K V) (now : Int) (key : K)
    (v : V) : TTLCache K V :=
  { c with storage := fun k => if k = key then some ⟨v, now + c.ttl⟩ else c.storage k }

/- Capability the orchestrator consumes from the scene classifier: the
duck-typed pair `recommend_scene` / `recommend_scene_from_text` that
music_service.py calls (the test stubs implement it; the bundled
`NeuralTaggerClient` implements only `recommend_scene`). The `.error` string
is a `NeuralTaggerError` message. -/
structure AIClient where
  recommend_scene : String → List String → Except String ScenePrediction
  recommend_scene_from_text : String → String → Except String ScenePrediction

/-- Optional YouTube Data API client; `.error` is a `YouTubeApiError`. -/
structure YouTubeDataClient where
  search_embeddable_video_ids : String → Nat → Except Unit (List String)

/-- `MusicService` state: configuration, the two TTL caches, collaborators. -/
structure MusicService where
  config : MusicConfig
  cache : TTLCache (String × String) SearchResult
  recCache : TTLCache (String × List String) RecommendationResult
  aiClient : Option AIClient
  yt : Option YouTubeDataClient

/-- `MusicService.__init__` (lines 51-66): both caches start empty with the
configured `cache_ttl_sec`. -/
def MusicService.mk_service (config : MusicConfig) (aiClient : Option AIClient)
    (yt : Option YouTubeDataClient) : MusicService :=
  { config := config
    cache := ⟨config.hysteresis.cache_ttl_sec, fun _ => none⟩
    recCache := ⟨config.hysteresis.cache_ttl_sec, fun _ => none⟩
    aiClient := aiClient
    yt := yt }

/-- `MusicService._get_scene_config` (lines 68-75): the `KeyError` message is
classified by its text, exactly as the source does. -/
def MusicService.get_scene_config (svc : MusicService) (genre scene : String) :
    Except PyError SceneConfig :=
  match svc.config.get_scene genre scene with
  | .ok sc => .ok sc
  | .error message =>
    if pyStartsWith message "Unknown genre" then .error (.genreNotFound message)
    else .error (.sceneNotFound message)

/-- Message of the `AttributeError` raised when search reads
`scene_config.youtube_playlist_id`, a field `SceneConfig` does not declare. -/
def scene_config_attr_error : String :=
  "\x27SceneConfig\x27 object has no attribute \x27youtube_playlist_id\x27"

/-- Message of the `AttributeError` raised when the recommendation assembly
reads `base_result.youtube_playlist_id` on a `SearchResult`. -/
def search_result_attr_error : String :=
  "\x27SearchResult\x27 object has no attribute \x27youtube_playlist_id\x27"

/-- Message of the `ValueError` raised when line 242 assigns
`base_result.youtube_video_ids` on a `SearchResult`. -/
def search_result_field_error : String :=
  "\x27SearchResult\x27 object has no field \x27youtube_video_ids\x27"

/- `MusicService.search` (lines 77-109). After a cache miss the method builds
the provider links and then, constructing the result, reads
`scene_config.youtube_playlist_id` (line 93); `SceneConfig` declares no such
field, so pydantic raises `AttributeError` before any `SearchResult` exists.
Lines 96-108 (YouTube enrichment and the cache store) are unreachable. -/
def MusicService.search (svc : MusicService) (now : Int) (genre scene : String) :
    Except PyError (SearchResult × MusicService) :=
  let cache_key := (pyLower genre, pyLower scene)
  let looked := svc.cache.get now cache_key
  match looked.1 with
  | some cached => .ok (cached, { svc with cache := looked.2 })
  | none =>
    match svc.get_scene_config genre scene with
    | .error e => .error e
    | .ok scene_config =>
      let _playlists := scene_config.providers.map fun p => p.build_search scene_config.query
      .error (.attributeError scene_config_attr_error)

/-- `MusicService._canonical_scene_slug` (lines 308-332), as a function of the
configuration the method reads through `self._config`. -/
def MusicService.canonical_scene_slug (cfg : MusicConfig) (genre scene_name : String) :
    Except PyError (Option String) :=
  match assoc_get cfg.genres (pyLower genre) with
  | none => .error (.genreNotFound ("Unknown genre: " ++ genre))
  | some genre_config =>
    let normalized_scene := MusicService.normalize_token scene_name
    if normalized_scene = "" then .ok none
    else
      let keys := genre_config.scenes.map Prod.fst
      match keys.find? (fun scene_id => MusicService.normalize_token scene_id == normalized_scene) with
      | some scene_id => .ok (some scene_id)
      | none =>
        let prediction_tokens := MusicService.tokenize scene_name
        match keys.find? (fun scene_id =>
            let normalized_id := MusicService.normalize_token scene_id
            !normalized_id.isEmpty && prediction_tokens.contains normalized_id) with
        | some scene_id => .ok (some scene_id)
        | none => .ok none

/-- `MusicService._sanitize_query_for_youtube` (lines 263-275). -/
def MusicService.sanitize_query_for_youtube (value : String) : String :=
  if value = "" then ""
  else
    let tokens := ((value.replace "\n" " ").splitOn " ").map pyStrip
    let cleaned := tokens.filter fun t => !t.isEmpty && !(pyStartsWith t "-") && t != "-"
    String.intercalate " " cleaned

/-- Per-tag normalization of the tags path of `recommend` (line 189): keep
the tags whose strip is nonempty, stripped and lowercased. -/
def normalize_tags (tags : List String) : List String :=
  (tags.filter fun t => !(pyStrip t).isEmpty).map fun t => pyLower (pyStrip t)

/-- Python `list.sort()` on strings: order by code points. -/
def py_sort_strings (l : List String) : List String :=
  l.insertionSort (· ≤ ·)

/-- Recommendation-cache key of the tags path (line 199): lowercased genre
paired with the sorted normalized tags. -/
def recommend_tags_cache_key (genre : String) (tags : List String) :
    String × List String :=
  (pyLower genre, py_sort_strings (normalize_tags tags))

/- Fallback branch of `recommend` (lines 211-244) followed by the result
assembly (lines 246-257). The assembly reads `base_result.youtube_playlist_id`,
which `SearchResult` does not declare, so every run of this branch ends in a
Python error instead of a `RecommendationResult`: a `ValueError` when a
configured video client returns ids (the line 242 assignment to an undeclared
field), an `AttributeError` otherwise. -/
def MusicService.recommend_fallback (svc : MusicService) (genre : String)
    (pred : ScenePrediction) (trace : List TraceEv) :
    Except PyError (RecommendationResult × MusicService) × List TraceEv :=
  match svc.config.get_dynamic_defaults genre with
  | .error msg => (.error (.keyError msg), trace)
  | .ok none =>
    (.error (.recommendationUnavailable "Нейросеть вернула неизвестную сцену, а fallback не настроен"), trace)
  | .ok (some fallback) =>
    let scene_slug := MusicService.normalize_token pred.scene
    if scene_slug = "" then
      (.error (.recommendationUnavailable "Не удалось интерпретировать сцену из рекомендаций"), trace)
    else
      let _playlists := fallback.providers.map fun p => p.build_search pred.scene
      match svc.yt with
      | some y =>
        let cleaned := MusicService.sanitize_query_for_youtube pred.scene
        match y.search_embeddable_video_ids (if cleaned = "" then pred.scene else cleaned) 10 with
        | .ok ids =>
          if ids.isEmpty then (.error (.attributeError search_result_attr_error), trace)
          else (.error (.valueError search_result_field_error), trace)
        | .error _ => (.error (.attributeError search_result_attr_error), trace)
      | none => (.error (.attributeError search_result_attr_error), trace)

/- Lines 206-257 of `recommend`: canonical branch (truthy canonical scene) or
fallback. On the canonical branch `search` itself raises on a cache miss, and
after a cache hit the assembly reads `base_result.youtube_playlist_id` on a
`SearchResult`, so this branch too always ends in a Python error. -/
def MusicService.recommend_finish (svc : MusicService) (now : Int) (genre : String)
    (pred : ScenePrediction) (canonical : Option String) (trace : List TraceEv) :
    Except PyError (RecommendationResult × MusicService) × List TraceEv :=
  match canonical with
  | some s =>
    if s = "" then svc.recommend_fallback genre pred trace
    else
      match svc.search now genre s with
      | .error e => (.error e, trace ++ [.searchCall])
      | .ok _ => (.error (.attributeError search_result_attr_error), trace ++ [.searchCall])
  | none => svc.recommend_fallback genre pred trace

/-- Tags path of `recommend` (lines 187-204). -/
def MusicService.recommend_tags_path (svc : MusicService) (now : Int)
    (genre : String) (tags : List String) :
    Except PyError (RecommendationResult × MusicService) × List TraceEv :=
  let cache_key := recommend_tags_cache_key genre tags
  let normalized_tags := cache_key.2
  if normalized_tags.isEmpty then
    (.error (.recommendationUnavailable "Нужен хотя бы один тег или raw_text для рекомендации"), [])
  else
    match svc.aiClient with
    | none => (.error (.recommendationUnavailable "Сервис рекомендаций не настроен"), [])
    | some client =>
      let looked := svc.recCache.get now cache_key
      match looked.1 with
      | some cached => (.ok (cached, { svc with recCache := looked.2 }), [])
      | none =>
        let svc1 := { svc with recCache := looked.2 }
        match client.recommend_scene genre normalized_tags with
        | .error msg => (.error (.recommendationUnavailable msg), [.classifierCall])
        | .ok pred =>
          match MusicService.canonical_scene_slug svc1.config genre pred.scene with
          | .error e => (.error e, [.classifierCall, .canonicalResolve])
          | .ok canonical =>
            svc1.recommend_finish now genre pred canonical [.classifierCall, .canonicalResolve]

/- `MusicService.recommend` (lines 171-261). `py_hash` stands for the Python
builtin `hash` on strings, used only inside the raw-text cache key
`f"raw:\x7bhash(raw_text.strip())\x7d"`. The raw-text branch runs when the raw
text and its strip are nonempty and a classifier is configured; it never
consults `_canonical_scene_slug` (`_call_ai_with_text` pins the canonical
scene to `None`). The second component of the result is the trace. -/
def MusicService.recommend (py_hash : String → Int) (svc : MusicService) (now : Int)
    (genre : String) (tags : List String) (raw_text : Option String) :
    Except PyError (RecommendationResult × MusicService) × List TraceEv :=
  match raw_text, svc.aiClient with
  | some rt, some client =>
    if !rt.isEmpty && !(pyStrip rt).isEmpty then
      let cache_key : String × List String :=
        (pyLower genre, ["raw:" ++ toString (py_hash (pyStrip rt))])
      let looked := svc.recCache.get now cache_key
      match looked.1 with
      | some cached => (.ok (cached, { svc with recCache := looked.2 }), [])
      | none =>
        let svc1 := { svc with recCache := looked.2 }
        match client.recommend_scene_from_text genre (pyStrip rt) with
        | .error msg => (.error (.recommendationUnavailable msg), [.classifierTextCall])
        | .ok pred => svc1.recommend_finish now genre pred none [.classifierTextCall]
    else
      svc.recommend_tags_path now genre tags
  | _, _ => svc.recommend_tags_path now genre tags

/-- Sample provider template, shaped like the ones in the shipped config. -/
def sample_provider : PlaylistProviderConfig :=
  { name := "YouTube"
    url_template := "https://www.youtube.com/results?search_query=\x7bquery\x7d" }

/-- Sample hysteresis block. -/
def sample_hysteresis : HysteresisConfig :=
  { min_confidence := 1/2, window_sec := 10, cooldown_sec := 5, cache_ttl_sec := 600 }

/-- Sample catalog: genre `fantasy` with scenes `battle` and `tavern` and a
dynamic fallback, mirroring the shape of `config/default.yaml`. -/
def sample_config : MusicConfig :=
  { genres := [("fantasy",
      { scenes :=
          [("battle", { query := "epic battle music", providers := [sample_provider] }),
           ("tavern", { query := "tavern ambience", providers := [sample_provider] })]
        dynamic_defaults := some { providers := [sample_provider] } })]
    hysteresis := sample_hysteresis }

/-- A pirate-flavoured genre with the multi-word scene id `tavern_brawl`. -/
def pirate_genre : GenreConfig :=
  { scenes := [("tavern_brawl", { query := "sea shanty brawl", providers := [sample_provider] })]
    dynamic_defaults := some { providers := [sample_provider] } }

/-- Catalog holding `pirate_genre`. -/
def pirate_config : MusicConfig :=
  { genres := [("pirate", pirate_genre)], hysteresis := sample_hysteresis }

/-- Genre whose only scene id normalizes to the empty string. -/
def punct_genre : GenreConfig :=
  { scenes := [("---", { query := "x" })], dynamic_defaults := none }

/-- Catalog holding `punct_genre`. -/
def punct_config : MusicConfig :=
  { genres := [("g", punct_genre)], hysteresis := sample_hysteresis }

/-- Genre with the single-word scene id `battle` only. -/
def battle_genre : GenreConfig :=
  { scenes := [("battle", { query := "epic battle music", providers := [sample_provider] })]
    dynamic_defaults := none }

/-- Catalog holding `battle_genre`. -/
def battle_only_config : MusicConfig :=
  { genres := [("g", battle_genre)], hysteresis := sample_hysteresis }

/-- Service over the pirate catalog without collaborators. -/
def svc_pirate : MusicService :=
  MusicService.mk_service pirate_config none none

/-- Empty integer cache used by the cache witness. -/
def nat_cache : TTLCache Nat Nat :=
  ⟨10, fun _ => none⟩

/-- Classifier stub that always returns the same prediction. -/
def stub_client (pred : ScenePrediction) : AIClient :=
  { recommend_scene := fun _ _ => .ok pred
    recommend_scene_from_text := fun _ _ => .ok pred }

/-- Service over the sample catalog without collaborators. -/
def svc_plain : MusicService :=
  MusicService.mk_service sample_config none none

/-- Service whose classifier predicts `Mysterious Bazaar`. -/
def svc_bazaar : MusicService :=
  MusicService.mk_service sample_config
    (some (stub_client { scene := "Mysterious Bazaar", reason := some "stub" })) none

/-- Service whose classifier predicts the catalog scene name `tavern`. -/
def svc_tavern : MusicService :=
  MusicService.mk_service sample_config
    (some (stub_client { scene := "tavern" })) none

theorem word_runs_ne_nil {t : List Char} :
    ∀ (l cur : List Char), t ∈ word_runs l cur → t ≠ [] := by
  intro l
  induction l with
  | nil =>
    intro cur h
    by_cases hc : cur.isEmpty
    · simp [word_runs, hc] at h
    · simp [word_runs, hc] at h
      subst h
      simp only [ne_eq, List.reverse_eq_nil_iff]
      intro hnil
      exact hc (by simp [hnil])
  | cons c rest ih =>
    intro cur h
    by_cases hw : word_char c
    · simp only [word_runs, hw, if_true] at h
      exact ih _ h
    · by_cases hc : cur.isEmpty
      · simp only [word_runs, hw, hc] at h
        exact ih _ (by simpa using h)
      · simp only [word_runs, hw, hc, Bool.false_eq_true, if_false, List.mem_cons] at h
        rcases h with h1 | h1
        · subst h1
          simp only [ne_eq, List.reverse_eq_nil_iff]
          intro hnil
          exact hc (by simp [hnil])
        · exact ih _ h1

theorem word_runs_chars {a : Char} {t : List Char} :
    ∀ (l cur : List Char), t ∈ word_runs l cur → a ∈ t → a ∈ l ∨ a ∈ cur := by
  intro l
  induction l with
  | nil =>
    intro cur h ha
    by_cases hc : cur.isEmpty
    · simp [word_runs, hc] at h
    · simp [word_runs, hc] at h
      subst h
      exact Or.inr (List.mem_reverse.mp ha)
  | cons c rest ih =>
    intro cur h ha
    by_cases hw : word_char c
    · simp only [word_runs, hw, if_true] at h
      rcases ih _ h ha with hl | hr
      · exact Or.inl (List.mem_cons_of_mem _ hl)
      · rcases List.mem_cons.mp hr with h1 | h1
        · exact Or.inl (h1 ▸ List.mem_cons_self _ _)
        · exact Or.inr h1
    · by_cases hc : cur.isEmpty
      · simp only [word_runs, hw, hc] at h
        rcases ih _ (by simpa using h) ha with hl | hr
        · exact Or.inl (List.mem_cons_of_mem _ hl)
        · simp at hr
      · simp only [word_runs, hw, hc, Bool.false_eq_true, if_false, List.mem_cons] at h
        rcases h with h1 | h1
        · subst h1
          exact Or.inr (List.mem_reverse.mp ha)
        · rcases ih _ h1 ha with hl | hr
          · exact Or.inl (List.mem_cons_of_mem _ hl)
          · simp at hr

theorem tokenize_ne_empty {v : String} {t : String} (h : t ∈ MusicService.tokenize v) :
    t ≠ "" := by
  simp only [MusicService.tokenize, List.mem_map] at h
  obtain ⟨run, hrun, rfl⟩ := h
  have := word_runs_ne_nil _ _ hrun
  intro he
  exact this (congrArg String.data he)

theorem tokenize_no_underscore {v : String} {t : String}
    (h : t ∈ MusicService.tokenize v) : '_' ∉ t.data := by
  simp only [MusicService.tokenize, List.mem_map] at h
  obtain ⟨run, hrun, rfl⟩ := h
  intro hu
  rcases word_runs_chars _ _ hrun hu with hl | hr
  · simp only [List.mem_map] at hl
    obtain ⟨c, _, hc⟩ := hl
    by_cases h27 : c == '_'
    · simp [h27] at hc
    · simp [h27] at hc
      subst hc
      simp at h27
  · simp at hr

theorem join_underscore_ne_empty :
    ∀ (ts : List String), (∀ t ∈ ts, t ≠ "") → ts ≠ [] → join_underscore ts ≠ ""
  | [], _, hne => absurd rfl hne
  | [t], hall, _ => hall t (by simp)
  | t :: t2 :: rest, _, _ => by
    intro he
    have hdata := congrArg String.data he
    simp only [join_underscore, String.data_append] at hdata
    simp at hdata

theorem normalize_token_empty_iff (v : String) :
    MusicService.normalize_token v = "" ↔ MusicService.tokenize v = [] := by
  constructor
  · intro h
    by_contra hne
    exact join_underscore_ne_empty _ (fun t ht => tokenize_ne_empty ht) hne h
  · intro h
    simp [MusicService.normalize_token, h, join_underscore]


theorem assoc_get_of_mem {β : Type} :
    ∀ (l : List (String × β)) (k : String), k ∈ l.map Prod.fst →
      ∃ v, assoc_get l k = some v
  | [], _, h => by simp at h
  | (a, b) :: rest, k, h => by
    by_cases hak : a = k
    · exact ⟨b, by simp [assoc_get, hak]⟩
    · have : k ∈ rest.map Prod.fst := by
        rcases List.mem_cons.mp h with h1 | h1
        · exact absurd h1.symm hak
        · exact h1
      obtain ⟨v, hv⟩ := assoc_get_of_mem rest k this
      exact ⟨v, by simp [assoc_get, hak, hv]⟩

theorem py_sort_strings_eq_of_perm {l1 l2 : List String}
    (h : List.Perm l1 l2) : py_sort_strings l1 = py_sort_strings l2 :=
  List.eq_of_perm_of_sorted
    ((List.perm_insertionSort _ l1).trans (h.trans (List.perm_insertionSort _ l2).symm))
    (List.sorted_insertionSort _ l1) (List.sorted_insertionSort _ l2)

theorem py_sort_strings_eq_nil_iff (l : List String) :
    py_sort_strings l = [] ↔ l = [] := by
  constructor
  · intro h
    have := (List.perm_insertionSort (· ≤ ·) l).length_eq
    rw [show l.insertionSort (· ≤ ·) = py_sort_strings l from rfl, h] at this
    exact List.length_eq_zero.mp this.symm
  · intro h
    subst h
    rfl

/-- C1: the spec says `search(genre, scene)` either returns a `SearchResult`
or fails with exactly `GenreNotFound` or `SceneNotFound`, and no other
failure escapes. On the code, for a genre and scene present in the catalog,
`search` instead raises `AttributeError` while reading
`scene_config.youtube_playlist_id` (music_service.py line 93), a field
`SceneConfig` does not declare -- contradicting the repository tests
`test_search_returns_playlists` and `test_search_endpoint`, which expect a
successful result. Evaluated at the failing input `("fantasy", "battle")`. -/
theorem C1_search_raises_attribute_error :
    MusicService.search svc_plain 0 "fantasy" "battle" =
      .error (.attributeError scene_config_attr_error) := rfl

/-- C2: in raw-text mode `recommend` does skip canonical-scene resolution --
the trace holds the raw-text classifier call only, no `canonicalResolve`
event -- but the claimed fallback-built result never materialises: the
assembly at music_service.py line 252 reads `base_result.youtube_playlist_id`
on a `SearchResult`, which declares no such field, so the run raises
`AttributeError`. Evaluated with a classifier predicting the catalog scene
name `tavern` from the raw text, which canonical resolution would have
resolved had it run. -/
theorem C2_raw_text_skips_resolution_then_crashes :
    MusicService.recommend (fun _ => 7) svc_tavern 0 "fantasy" []
        (some " the tavern fight ") =
      (.error (.attributeError search_result_attr_error), [.classifierTextCall]) := rfl

/-- C3: for a classifier returning `Mysterious Bazaar` on a genre with a
dynamic fallback and no matching scene, the spec (and the repository test
`test_recommend_unknown_scene_uses_fallback`) expects a
`RecommendationResult` with scene `mysterious_bazaar` and query
`Mysterious Bazaar`; the code instead raises `AttributeError` at the result
assembly (line 252, reading `base_result.youtube_playlist_id` on a
`SearchResult`), after having taken the fallback branch, as the trace
shows. -/
theorem C3_fallback_recommendation_crashes :
    MusicService.recommend (fun _ => 0) svc_bazaar 0 "fantasy" ["market"] none =
      (.error (.attributeError search_result_attr_error),
        [.classifierCall, .canonicalResolve]) := rfl

/-- C6: TTL cache semantics. `set` stores the value with absolute expiry
`now + ttl`; `get` returns the absent marker on a missing key (leaving the
cache unchanged) and on an expired key (evicting that entry in the same
call); an unexpired entry is returned as stored; and a `get` at any time up
to `set`-time plus TTL returns the value just set. -/
theorem C6_ttl_cache_get_set_spec {K V : Type} [DecidableEq K]
    (c : TTLCache K V) (key : K) (now : Int) :
    (c.storage key = none → c.get now key = (none, c)) ∧
    (∀ e, c.storage key = some e → e.expires_at < now →
      (c.get now key).1 = none ∧ ((c.get now key).2).storage key = none) ∧
    (∀ e, c.storage key = some e → ¬ e.expires_at < now →
      c.get now key = (some e.value, c)) ∧
    (∀ (v : V) (tset : Int),
      (c.set tset key v).storage key = some ⟨v, tset + c.ttl⟩) ∧
    (∀ (v : V) (tset tread : Int), tread ≤ tset + c.ttl →
      ((c.set tset key v).get tread key).1 = some v) := by
  refine ⟨?_, ?_, ?_, ?_, ?_⟩
  · intro h
    simp [TTLCache.get, h]
  · intro e he hexp
    simp [TTLCache.get, he, hexp]
  · intro e he hexp
    simp [TTLCache.get, he, hexp]
  · intro v tset
    simp [TTLCache.set]
  · intro v tset tread hle
    have hnl : ¬ (tset + c.ttl < tread) := not_lt.mpr hle
    simp [TTLCache.get, TTLCache.set, hnl]

/-- Witness for C6 at a concrete cache: a value set at time 0 with TTL 10 is
still returned at time 10, and a missing key reads as absent. -/
theorem C6_witness :
    ((nat_cache.set 0 5 7).get 10 5).1 = some 7 ∧
      nat_cache.get 0 5 = (none, nat_cache) :=
  ⟨(C6_ttl_cache_get_set_spec nat_cache 5 0).2.2.2.2 7 0 10 (by decide),
   (C6_ttl_cache_get_set_spec nat_cache 5 0).1 rfl⟩

/-- C7: the recommendation-cache key of the tags path is invariant under
permuting the tag sequence (after per-tag normalization), since the key pairs
the lowercased genre with the sorted normalized tags; hence two such calls
address the same recommendation-cache entry. -/
theorem C7_cache_key_tag_order_independent (genre : String) (t1 t2 : List String)
    (h : List.Perm (normalize_tags t1) (normalize_tags t2)) :
    recommend_tags_cache_key genre t1 = recommend_tags_cache_key genre t2 := by
  unfold recommend_tags_cache_key
  rw [py_sort_strings_eq_of_perm h]

/-- Witness for C7: the two tag orders of the spec example produce one key. -/
theorem C7_witness :
    recommend_tags_cache_key "fantasy" ["battle", "dragons"] =
      recommend_tags_cache_key "fantasy" ["dragons", "battle"] :=
  C7_cache_key_tag_order_independent "fantasy" ["battle", "dragons"]
    ["dragons", "battle"] (by decide)

/-- C8: with no raw text and a tag list whose normalization is empty,
`recommend` fails with `RecommendationUnavailable` and the empty trace shows
that no classifier call was made. -/
theorem C8_empty_tags_fail_before_classifier (py_hash : String → Int)
    (svc : MusicService) (now : Int) (genre : String) (tags : List String)
    (h : normalize_tags tags = []) :
    MusicService.recommend py_hash svc now genre tags none =
      (.error (.recommendationUnavailable
          "Нужен хотя бы один тег или raw_text для рекомендации"),
        ([] : List TraceEv)) := by
  have hkey : (recommend_tags_cache_key genre tags).2 = [] := by
    simp [recommend_tags_cache_key, h, py_sort_strings, List.insertionSort]
  simp [MusicService.recommend, MusicService.recommend_tags_path, hkey]

/-- Witness for C8: blank tags on a service with a configured classifier. -/
theorem C8_witness :
    MusicService.recommend (fun _ => 0) svc_bazaar 3 "fantasy" ["  ", ""] none =
      (.error (.recommendationUnavailable
          "Нужен хотя бы один тег или raw_text для рекомендации"),
        ([] : List TraceEv)) :=
  C8_empty_tags_fail_before_classifier (fun _ => 0) svc_bazaar 3 "fantasy"
    ["  ", ""] (by decide)

/-- Counterexample to C4 as stated: in `punct_config` the stored scene id
`---` and the candidate `???` have equal normalized forms (both empty), yet
the resolver returns no match -- it bails out on an empty normalized
candidate before rule 2 runs -- rather than returning that scene id. -/
theorem C4_counterexample :
    assoc_get punct_config.genres (pyLower "g") = some punct_genre ∧
    "---" ∈ punct_genre.scenes.map Prod.fst ∧
    MusicService.normalize_token "???" = MusicService.normalize_token "---" ∧
    MusicService.canonical_scene_slug punct_config "g" "???" = .ok none ∧
    MusicService.canonical_scene_slug punct_config "g" "???" ≠ .ok (some "---") := by
  refine ⟨rfl, by decide, rfl, rfl, ?_⟩
  intro h
  exact Option.noConfusion (Except.ok.inj h)

/-- C4 (amended): for a genre in the catalog, whenever the candidate scene
name has a nonempty normalized form equal to the normalized form of some
stored scene id, the resolver returns a stored scene id with exactly that
normalized form (rule 2, exact normalized match). -/
theorem C4_exact_normalized_match (cfg : MusicConfig) (genre cand : String)
    (gc : GenreConfig) (id : String)
    (hg : assoc_get cfg.genres (pyLower genre) = some gc)
    (hmem : id ∈ gc.scenes.map Prod.fst)
    (heq : MusicService.normalize_token id = MusicService.normalize_token cand)
    (hne : MusicService.normalize_token cand ≠ "") :
    ∃ s, MusicService.canonical_scene_slug cfg genre cand = .ok (some s) ∧
      s ∈ gc.scenes.map Prod.fst ∧
      MusicService.normalize_token s = MusicService.normalize_token cand := by
  simp only [MusicService.canonical_scene_slug, hg]
  rw [if_neg hne]
  have hfind : (gc.scenes.map Prod.fst).find?
      (fun sid => MusicService.normalize_token sid == MusicService.normalize_token cand) ≠
        none := by
    intro hnone
    have := List.find?_eq_none.mp hnone id hmem
    simp [heq] at this
  cases hf : (gc.scenes.map Prod.fst).find?
      (fun sid => MusicService.normalize_token sid == MusicService.normalize_token cand) with
  | none => exact absurd hf hfind
  | some s =>
    refine ⟨s, by simp [hf], List.mem_of_find?_eq_some hf, ?_⟩
    have := List.find?_some hf
    simpa using this

/-- Witness for C4: `Tavern Brawl` resolves to the catalog id `tavern_brawl`
of the pirate genre through the exact-normalized-match rule. -/
theorem C4_witness :
    MusicService.normalize_token "tavern_brawl" = MusicService.normalize_token "Tavern Brawl" ∧
    MusicService.canonical_scene_slug pirate_config "pirate" "Tavern Brawl" =
      .ok (some "tavern_brawl") := by
  obtain ⟨s, hs, hsmem, hsnorm⟩ := C4_exact_normalized_match pirate_config "pirate"
    "Tavern Brawl" pirate_genre "tavern_brawl" rfl (by decide) (by decide) (by decide)
  exact ⟨by decide, rfl⟩

/-- C5: when no stored scene id of the genre matches the candidate by
normalized form (rule 2 fails everywhere), the resolver returns a scene id
precisely when the entire normalized id is literally one of the candidate
tokens: any id it returns is stored and its normalized form is a candidate
token, and when it returns no match, no stored id has its normalized form
among the candidate tokens. Moreover a scene id whose normalized form
contains an underscore -- any multi-word id -- is never one of the candidate
tokens, since tokens are produced after underscores are replaced by spaces. -/
theorem C5_token_membership_match (cfg : MusicConfig) (genre cand : String)
    (gc : GenreConfig)
    (hg : assoc_get cfg.genres (pyLower genre) = some gc)
    (hno2 : ∀ id ∈ gc.scenes.map Prod.fst,
      MusicService.normalize_token id ≠ MusicService.normalize_token cand) :
    ((∀ s, MusicService.canonical_scene_slug cfg genre cand = .ok (some s) →
        s ∈ gc.scenes.map Prod.fst ∧
        MusicService.normalize_token s ∈ MusicService.tokenize cand) ∧
      (MusicService.canonical_scene_slug cfg genre cand = .ok none →
        ∀ id ∈ gc.scenes.map Prod.fst,
          MusicService.normalize_token id ∉ MusicService.tokenize cand)) ∧
    (∀ id cand2 : String, '_' ∈ (MusicService.normalize_token id).data →
      MusicService.normalize_token id ∉ MusicService.tokenize cand2) := by
  refine ⟨?_, ?_⟩
  swap
  · intro id cand2 hu hmem
    exact tokenize_no_underscore hmem hu
  by_cases hn : MusicService.normalize_token cand = ""
  · have htok : MusicService.tokenize cand = [] := (normalize_token_empty_iff cand).mp hn
    constructor
    · intro s hs
      simp only [MusicService.canonical_scene_slug, hg, if_pos hn] at hs
      exact Option.noConfusion (Except.ok.inj hs)
    · intro _ id _ hmem
      rw [htok] at hmem
      simp at hmem
  · have h2 : (gc.scenes.map Prod.fst).find?
        (fun sid => MusicService.normalize_token sid == MusicService.normalize_token cand) =
          none := by
      apply List.find?_eq_none.mpr
      intro id hid
      simp [hno2 id hid]
    constructor
    · intro s hs
      simp only [MusicService.canonical_scene_slug, hg, if_neg hn, h2] at hs
      cases h3 : (gc.scenes.map Prod.fst).find? (fun sid =>
          !(MusicService.normalize_token sid).isEmpty &&
            (MusicService.tokenize cand).contains (MusicService.normalize_token sid)) with
      | none =>
        rw [h3] at hs
        exact absurd (Except.ok.inj hs) (by simp)
      | some id =>
        rw [h3] at hs
        have hid : id = s := Option.some.inj (Except.ok.inj hs)
        subst hid
        refine ⟨List.mem_of_find?_eq_some h3, ?_⟩
        have := List.find?_some h3
        simp only [Bool.and_eq_true, List.elem_iff] at this
        exact this.2
    · intro hs id hid hmemTok
      simp only [MusicService.canonical_scene_slug, hg, if_neg hn, h2] at hs
      cases h3 : (gc.scenes.map Prod.fst).find? (fun sid =>
          !(MusicService.normalize_token sid).isEmpty &&
            (MusicService.tokenize cand).contains (MusicService.normalize_token sid)) with
      | none =>
        have := List.find?_eq_none.mp h3 id hid
        have hidne : MusicService.normalize_token id ≠ "" := tokenize_ne_empty hmemTok
        simp only [Bool.and_eq_true, List.elem_iff, not_and] at this
        have hEf : (MusicService.normalize_token id).isEmpty = false := by
          cases hE : (MusicService.normalize_token id).isEmpty with
          | false => rfl
          | true => exact absurd ((String.isEmpty_iff _).mp hE) hidne
        have hnotmem : ¬ MusicService.normalize_token id ∈ MusicService.tokenize cand := by
          apply this
          simp [hEf]
        exact hnotmem hmemTok
      | some id2 =>
        rw [h3] at hs
        exact Option.noConfusion (Except.ok.inj hs)

/-- Witness for C5: in a catalog with the single-word id `battle`, the
candidate `dragon battle in the valley` resolves to `battle`; applying the
theorem, the multi-word id `dragon_battle` is never a candidate token. -/
theorem C5_witness :
    MusicService.canonical_scene_slug battle_only_config "g" "dragon battle in the valley" =
        .ok (some "battle") ∧
    MusicService.normalize_token "battle" ∈
        MusicService.tokenize "dragon battle in the valley" ∧
    MusicService.normalize_token "dragon_battle" ∉
        MusicService.tokenize "dragon battle in the valley" := by
  refine ⟨rfl, by decide, ?_⟩
  exact (C5_token_membership_match battle_only_config "g" "dragon battle in the valley"
      battle_genre rfl (by decide)).2 "dragon_battle" "dragon battle in the valley" (by decide)

/-- Counterexample to C9 as stated: with genre `western` absent from the
sample catalog and an empty tag list, `recommend` fails with
`RecommendationUnavailable` (the empty-tags check runs before any genre
lookup), not with `GenreNotFound`. -/
theorem C9_counterexample :
    assoc_get sample_config.genres (pyLower "western") = none ∧
    (MusicService.recommend (fun _ => 0) svc_bazaar 0 "western" [] none).1 =
      .error (.recommendationUnavailable
        "Нужен хотя бы один тег или raw_text для рекомендации") ∧
    (MusicService.recommend (fun _ => 0) svc_bazaar 0 "western" [] none).1 ≠
      .error (.genreNotFound "Unknown genre: western") := by
  refine ⟨rfl, rfl, ?_⟩
  intro h
  exact PyError.noConfusion (Except.error.inj h)

/-- C9 (amended): for a genre absent from the catalog, `recommend` on the
tags path -- no raw text, at least one usable tag, a configured classifier
whose call succeeds, and no cached entry under the computed key -- fails with
`GenreNotFound`; with an empty normalized tag list, a missing classifier, or
a failing classifier call it fails with `RecommendationUnavailable` instead. -/
theorem C9_genre_not_found_on_tags_path (py_hash : String → Int)
    (svc : MusicService) (now : Int) (genre : String) (tags : List String)
    (client : AIClient) (pred : ScenePrediction)
    (hai : svc.aiClient = some client)
    (hgenre : assoc_get svc.config.genres (pyLower genre) = none)
    (htags : normalize_tags tags ≠ [])
    (hmiss : (svc.recCache.get now (recommend_tags_cache_key genre tags)).1 = none)
    (hcall : client.recommend_scene genre (recommend_tags_cache_key genre tags).2 =
      .ok pred) :
    (MusicService.recommend py_hash svc now genre tags none).1 =
      .error (.genreNotFound ("Unknown genre: " ++ genre)) := by
  have hkey : (recommend_tags_cache_key genre tags).2.isEmpty = false := by
    cases hE : (recommend_tags_cache_key genre tags).2.isEmpty with
    | false => rfl
    | true =>
      have := List.isEmpty_iff.mp hE
      simp only [recommend_tags_cache_key] at this
      exact absurd ((py_sort_strings_eq_nil_iff _).mp this) htags
  simp only [MusicService.recommend, MusicService.recommend_tags_path, hkey,
    Bool.false_eq_true, if_false, hai, hmiss, hcall,
    MusicService.canonical_scene_slug, hgenre]

/-- Witness for C9: one usable tag, a stub classifier, an unknown genre. -/
theorem C9_witness :
    (MusicService.recommend (fun _ => 0) svc_bazaar 0 "western" ["fight"] none).1 =
      .error (.genreNotFound "Unknown genre: western") :=
  C9_genre_not_found_on_tags_path (fun _ => 0) svc_bazaar 0 "western" ["fight"]
    (stub_client { scene := "Mysterious Bazaar", reason := some "stub" })
    { scene := "Mysterious Bazaar", reason := some "stub" }
    rfl rfl (by decide) rfl rfl

/-- C10: the resolver only ever returns stored scene ids -- whenever
`_canonical_scene_slug` yields a scene id it is literally a key of the
scenes mapping of the genre -- and on a catalog whose scene ids are stored
lowercase (the documented catalog invariant) a subsequent
`search(genre, canonical_scene)` can never fail with `SceneNotFound`. -/
theorem C10_resolver_catalog_valid (cfg : MusicConfig) (genre cand : String)
    (gc : GenreConfig) (s : String)
    (hg : assoc_get cfg.genres (pyLower genre) = some gc)
    (hs : MusicService.canonical_scene_slug cfg genre cand = .ok (some s))
    (hlow : ∀ k ∈ gc.scenes.map Prod.fst, pyLower k = k)
    (svc : MusicService) (now : Int) (hsvc : svc.config = cfg) (m : String) :
    s ∈ gc.scenes.map Prod.fst ∧
      svc.search now genre s ≠ .error (.sceneNotFound m) := by
  have hmem : s ∈ gc.scenes.map Prod.fst := by
    simp only [MusicService.canonical_scene_slug, hg] at hs
    by_cases hn : MusicService.normalize_token cand = ""
    · rw [if_pos hn] at hs
      exact absurd (Except.ok.inj hs) (by simp)
    · rw [if_neg hn] at hs
      cases h2 : (gc.scenes.map Prod.fst).find?
          (fun sid => MusicService.normalize_token sid == MusicService.normalize_token cand) with
      | some id =>
        rw [h2] at hs
        have : id = s := Option.some.inj (Except.ok.inj hs)
        exact this ▸ List.mem_of_find?_eq_some h2
      | none =>
        rw [h2] at hs
        cases h3 : (gc.scenes.map Prod.fst).find? (fun sid =>
            !(MusicService.normalize_token sid).isEmpty &&
              (MusicService.tokenize cand).contains (MusicService.normalize_token sid)) with
        | some id =>
          rw [h3] at hs
          have : id = s := Option.some.inj (Except.ok.inj hs)
          exact this ▸ List.mem_of_find?_eq_some h3
        | none =>
          rw [h3] at hs
          exact absurd (Except.ok.inj hs) (by simp)
  refine ⟨hmem, ?_⟩
  obtain ⟨sc, hsc⟩ := assoc_get_of_mem gc.scenes s hmem
  intro hbad
  simp only [MusicService.search] at hbad
  cases hget : (svc.cache.get now (pyLower genre, pyLower s)).1 with
  | some cached =>
    rw [hget] at hbad
    exact Except.noConfusion hbad
  | none =>
    rw [hget] at hbad
    simp only [MusicService.get_scene_config, MusicConfig.get_scene,
      MusicConfig.get_genre_config, hsvc, hg, hlow s hmem, hsc] at hbad
    exact PyError.noConfusion (Except.error.inj hbad)

/-- Witness for C10: `Tavern Brawl` resolves to the stored id `tavern_brawl`,
which is a key of the pirate genre, and searching it never reports
`SceneNotFound`. -/
theorem C10_witness :
    "tavern_brawl" ∈ pirate_genre.scenes.map Prod.fst ∧
      MusicService.search svc_pirate 0 "pirate" "tavern_brawl" ≠
        .error (.sceneNotFound "x") :=
  C10_resolver_catalog_valid pirate_config "pirate" "Tavern Brawl" pirate_genre
    "tavern_brawl" rfl rfl (by decide) svc_pirate 0 rfl "x"
